import Mathlib

/-!
Shallow embedding of the MedischeduleAI shift-roster engine
(`src/App.tsx`, `src/services/geminiService.ts`) and proofs about its
edit cascade, month synthesis, save synchronizer, and generation entry
points.

Slot occupants are doctor-id strings; a JS `null`/`undefined` slot is
`none`.  The optional `morning` pair models the JS object field that is
present only on holiday days.
-/

/-- One of the two care units (`'icu' | 'general'` in the source). -/
inductive Ward : Type
  | icu
  | general
deriving DecidableEq, Repr

/-- Shift period (`'morning' | 'afternoon' | 'night'` in the source). -/
inductive ShiftName : Type
  | morning
  | afternoon
  | night
deriving DecidableEq, Repr

/-- A `{ icu, general }` assignment pair: each side a doctor id or `null`. -/
structure ShiftPair where
  icu : Option String
  general : Option String
deriving DecidableEq, Repr

/-- The `shifts` object of a day: `morning` is absent (`undefined`) on
non-holiday days. -/
structure Shifts where
  morning : Option ShiftPair
  afternoon : ShiftPair
  night : ShiftPair
deriving DecidableEq, Repr

/-- One day of the in-memory roster (`DailySchedule` in the source). -/
structure DailySchedule where
  date : String
  isHoliday : Bool
  holidayName : Option String
  shifts : Shifts
deriving DecidableEq, Repr

/-- `{ ...pair, [type]: doctorId }`: write one side of a pair. -/
def setPair (p : ShiftPair) (w : Ward) (doctorId : String) : ShiftPair :=
  match w with
  | Ward.icu => { p with icu := some doctorId }
  | Ward.general => { p with general := some doctorId }

/-- Read one side of a pair. -/
def getPair (p : ShiftPair) (w : Ward) : Option String :=
  match w with
  | Ward.icu => p.icu
  | Ward.general => p.general

/-- Read a slot of a day's `shifts` object; reading `morning` on a day
without a morning pair yields `none`. -/
def slotRead (s : Shifts) (shift : ShiftName) (w : Ward) : Option String :=
  match shift with
  | ShiftName.morning => s.morning.bind (fun p => getPair p w)
  | ShiftName.afternoon => getPair s.afternoon w
  | ShiftName.night => getPair s.night w

/-- The branch structure of `updateSchedule` (src/App.tsx lines 199-218)
applied to one day's `shifts` object:
* `morning` with a morning pair present: write it, then cascade
  cross-ward into afternoon and night (Pattern A for `general`,
  Pattern B for `icu`);
* `afternoon`: write afternoon and night of the same ward;
* otherwise (`night`, or `morning` when the pair is absent): write
  night only. -/
def applyShiftEdit (s : Shifts) (shift : ShiftName) (ty : Ward)
    (doctorId : String) : Shifts :=
  match shift, s.morning with
  | ShiftName.morning, some m =>
      let s1 : Shifts := { s with morning := some (setPair m ty doctorId) }
      match ty with
      | Ward.general =>
          { s1 with afternoon := setPair s1.afternoon Ward.icu doctorId,
                    night := setPair s1.night Ward.icu doctorId }
      | Ward.icu =>
          { s1 with afternoon := setPair s1.afternoon Ward.general doctorId,
                    night := setPair s1.night Ward.general doctorId }
  | ShiftName.afternoon, _ =>
      { s with afternoon := setPair s.afternoon ty doctorId,
               night := setPair s.night ty doctorId }
  | _, _ =>
      { s with night := setPair s.night ty doctorId }

/-- The per-day function of the `prev.map` in `updateSchedule`
(src/App.tsx lines 197-223): days with another date are returned
unchanged; on the matching date only `shifts` is replaced. -/
def editDay (date : String) (shift : ShiftName) (ty : Ward)
    (doctorId : String) (day : DailySchedule) : DailySchedule :=
  if day.date = date then
    { day with shifts := applyShiftEdit day.shifts shift ty doctorId }
  else
    day

/-- The roster transform performed by `updateSchedule` (src/App.tsx
lines 194-227).  The `user?.role !== 'admin'` guard of line 195 is
modelled in the synchronizer machine (`AppState.editStep`); this is the
`setSchedule` functional update itself. -/
def updateSchedule (prev : List DailySchedule) (date : String)
    (shift : ShiftName) (ty : Ward) (doctorId : String) :
    List DailySchedule :=
  prev.map (editDay date shift ty doctorId)

/-- The other ward, used to phrase the holiday cross-ward patterns. -/
def otherWard : Ward → Ward
  | Ward.icu => Ward.general
  | Ward.general => Ward.icu

lemma updateSchedule_length (prev : List DailySchedule) (date : String)
    (shift : ShiftName) (ty : Ward) (doctorId : String) :
    (updateSchedule prev date shift ty doctorId).length = prev.length := by
  simp [updateSchedule]

lemma updateSchedule_get (prev : List DailySchedule) (date : String)
    (shift : ShiftName) (ty : Ward) (doctorId : String)
    (i : Nat) (hi : i < prev.length)
    (hi' : i < (updateSchedule prev date shift ty doctorId).length) :
    (updateSchedule prev date shift ty doctorId).get ⟨i, hi'⟩
      = editDay date shift ty doctorId (prev.get ⟨i, hi⟩) := by
  simp [updateSchedule, List.get_eq_getElem, List.getElem_map]

example :
    applyShiftEdit
      { morning := some { icu := none, general := none },
        afternoon := { icu := none, general := none },
        night := { icu := none, general := none } }
      ShiftName.morning Ward.general "doc1"
    = { morning := some { icu := none, general := some "doc1" },
        afternoon := { icu := some "doc1", general := none },
        night := { icu := some "doc1", general := none } } := by
  decide

/-- C1: editing the Morning slot of ward `w` on a roster day that
carries a Morning pair writes the doctor id into Morning/`w` and into
the Afternoon and Night slots of the other ward on that date
(Pattern A for `w = general`, Pattern B for `w = icu`), and reading
those slots afterwards returns the edited id. -/
theorem updateSchedule_holiday_morning_cascade
    (roster : List DailySchedule) (d : String) (w : Ward)
    (doctorId : String) (i : Nat) (hi : i < roster.length)
    (hdate : (roster.get ⟨i, hi⟩).date = d)
    (hm : (roster.get ⟨i, hi⟩).shifts.morning.isSome = true)
    (hi' : i < (updateSchedule roster d ShiftName.morning w doctorId).length) :
    slotRead ((updateSchedule roster d ShiftName.morning w doctorId).get
        ⟨i, hi'⟩).shifts ShiftName.morning w = some doctorId
    ∧ slotRead ((updateSchedule roster d ShiftName.morning w doctorId).get
        ⟨i, hi'⟩).shifts ShiftName.afternoon (otherWard w) = some doctorId
    ∧ slotRead ((updateSchedule roster d ShiftName.morning w doctorId).get
        ⟨i, hi'⟩).shifts ShiftName.night (otherWard w) = some doctorId := by
  obtain ⟨m, hm'⟩ := Option.isSome_iff_exists.mp hm
  rw [updateSchedule_get roster d ShiftName.morning w doctorId i hi hi']
  rw [editDay, if_pos hdate]
  rw [List.get_eq_getElem] at hm'
  cases w <;>
    simp [applyShiftEdit, hm', slotRead, getPair, setPair, otherWard]

/-- Witness for C1 at a concrete one-day holiday roster. -/
theorem updateSchedule_holiday_morning_cascade_witness :
    slotRead ((updateSchedule
        [{ date := "2024-01-06", isHoliday := true, holidayName := none,
           shifts := { morning := some { icu := none, general := none },
                       afternoon := { icu := none, general := none },
                       night := { icu := none, general := none } } }]
        "2024-01-06" ShiftName.morning Ward.general "doc1").get
        ⟨0, by decide⟩).shifts ShiftName.morning Ward.general = some "doc1"
    ∧ slotRead ((updateSchedule
        [{ date := "2024-01-06", isHoliday := true, holidayName := none,
           shifts := { morning := some { icu := none, general := none },
                       afternoon := { icu := none, general := none },
                       night := { icu := none, general := none } } }]
        "2024-01-06" ShiftName.morning Ward.general "doc1").get
        ⟨0, by decide⟩).shifts ShiftName.afternoon (otherWard Ward.general)
        = some "doc1"
    ∧ slotRead ((updateSchedule
        [{ date := "2024-01-06", isHoliday := true, holidayName := none,
           shifts := { morning := some { icu := none, general := none },
                       afternoon := { icu := none, general := none },
                       night := { icu := none, general := none } } }]
        "2024-01-06" ShiftName.morning Ward.general "doc1").get
        ⟨0, by decide⟩).shifts ShiftName.night (otherWard Ward.general)
        = some "doc1" :=
  updateSchedule_holiday_morning_cascade _ "2024-01-06" Ward.general "doc1" 0
    (by decide) (by decide) (by decide) (by decide)

/-- C2: on any roster day, editing the Afternoon slot of ward `w`
writes the doctor id into both Afternoon/`w` and Night/`w`, while
editing the Night slot of ward `w` writes Night/`w` and leaves every
other slot of that day unchanged. -/
theorem updateSchedule_afternoon_continuity_night_no_cascade
    (roster : List DailySchedule) (d : String) (w : Ward)
    (doctorId : String) (i : Nat) (hi : i < roster.length)
    (hdate : (roster.get ⟨i, hi⟩).date = d)
    (hiA : i < (updateSchedule roster d ShiftName.afternoon w doctorId).length)
    (hiN : i < (updateSchedule roster d ShiftName.night w doctorId).length) :
    (slotRead ((updateSchedule roster d ShiftName.afternoon w doctorId).get
        ⟨i, hiA⟩).shifts ShiftName.afternoon w = some doctorId
     ∧ slotRead ((updateSchedule roster d ShiftName.afternoon w doctorId).get
        ⟨i, hiA⟩).shifts ShiftName.night w = some doctorId)
    ∧ (slotRead ((updateSchedule roster d ShiftName.night w doctorId).get
        ⟨i, hiN⟩).shifts ShiftName.night w = some doctorId
       ∧ ∀ sh : ShiftName, ∀ w' : Ward, ¬(sh = ShiftName.night ∧ w' = w) →
           slotRead ((updateSchedule roster d ShiftName.night w doctorId).get
             ⟨i, hiN⟩).shifts sh w'
           = slotRead (roster.get ⟨i, hi⟩).shifts sh w') := by
  rw [updateSchedule_get roster d ShiftName.afternoon w doctorId i hi hiA,
      updateSchedule_get roster d ShiftName.night w doctorId i hi hiN]
  rw [editDay, editDay, if_pos hdate, if_pos hdate]
  refine ⟨?_, ?_, ?_⟩
  · cases w <;> simp [applyShiftEdit, slotRead, getPair, setPair]
  · cases w <;> simp [applyShiftEdit, slotRead, getPair, setPair]
  · intro sh w' h
    cases sh <;> cases w <;> cases w' <;>
      simp_all [applyShiftEdit, slotRead, getPair, setPair]

/-- Witness for C2 at a concrete one-day roster. -/
theorem updateSchedule_afternoon_continuity_night_no_cascade_witness :
    (slotRead ((updateSchedule
        [{ date := "2024-01-03", isHoliday := false, holidayName := none,
           shifts := { morning := none,
                       afternoon := { icu := some "a", general := some "b" },
                       night := { icu := some "a", general := some "b" } } }]
        "2024-01-03" ShiftName.afternoon Ward.icu "doc2").get
        ⟨0, by decide⟩).shifts ShiftName.afternoon Ward.icu = some "doc2"
     ∧ slotRead ((updateSchedule
        [{ date := "2024-01-03", isHoliday := false, holidayName := none,
           shifts := { morning := none,
                       afternoon := { icu := some "a", general := some "b" },
                       night := { icu := some "a", general := some "b" } } }]
        "2024-01-03" ShiftName.afternoon Ward.icu "doc2").get
        ⟨0, by decide⟩).shifts ShiftName.night Ward.icu = some "doc2")
    ∧ (slotRead ((updateSchedule
        [{ date := "2024-01-03", isHoliday := false, holidayName := none,
           shifts := { morning := none,
                       afternoon := { icu := some "a", general := some "b" },
                       night := { icu := some "a", general := some "b" } } }]
        "2024-01-03" ShiftName.night Ward.icu "doc2").get
        ⟨0, by decide⟩).shifts ShiftName.night Ward.icu = some "doc2"
       ∧ ∀ sh : ShiftName, ∀ w' : Ward, ¬(sh = ShiftName.night ∧ w' = Ward.icu) →
           slotRead ((updateSchedule
        [{ date := "2024-01-03", isHoliday := false, holidayName := none,
           shifts := { morning := none,
                       afternoon := { icu := some "a", general := some "b" },
                       night := { icu := some "a", general := some "b" } } }]
        "2024-01-03" ShiftName.night Ward.icu "doc2").get
             ⟨0, by decide⟩).shifts sh w'
           = slotRead (([{ date := "2024-01-03", isHoliday := false,
                           holidayName := none,
                           shifts := { morning := none,
                                       afternoon := { icu := some "a", general := some "b" },
                                       night := { icu := some "a", general := some "b" } } }] :
               List DailySchedule).get ⟨0, by decide⟩).shifts sh w') :=
  updateSchedule_afternoon_continuity_night_no_cascade _ "2024-01-03"
    Ward.icu "doc2" 0 (by decide) (by decide) (by decide) (by decide)

/-- C4: an edit leaves every day with a different date untouched, and on
a day with the edited date only `shifts` can change: `date`, `isHoliday`
and `holidayName` are preserved. -/
theorem updateSchedule_frame
    (roster : List DailySchedule) (d : String) (sh : ShiftName) (w : Ward)
    (doctorId : String) (i : Nat) (hi : i < roster.length)
    (hi' : i < (updateSchedule roster d sh w doctorId).length) :
    ((roster.get ⟨i, hi⟩).date ≠ d →
      (updateSchedule roster d sh w doctorId).get ⟨i, hi'⟩ = roster.get ⟨i, hi⟩)
    ∧ ((updateSchedule roster d sh w doctorId).get ⟨i, hi'⟩).date
        = (roster.get ⟨i, hi⟩).date
    ∧ ((updateSchedule roster d sh w doctorId).get ⟨i, hi'⟩).isHoliday
        = (roster.get ⟨i, hi⟩).isHoliday
    ∧ ((updateSchedule roster d sh w doctorId).get ⟨i, hi'⟩).holidayName
        = (roster.get ⟨i, hi⟩).holidayName := by
  rw [updateSchedule_get roster d sh w doctorId i hi hi']
  unfold editDay
  simp only [List.get_eq_getElem]
  by_cases h : roster[i].date = d
  · simp [h]
  · simp [h]

/-- Witness for C4 at a concrete two-day roster, checking the day whose
date differs from the edited one. -/
theorem updateSchedule_frame_witness :
    ((([{ date := "2024-01-03", isHoliday := false, holidayName := none,
          shifts := { morning := none,
                      afternoon := { icu := none, general := none },
                      night := { icu := none, general := none } } },
        { date := "2024-01-04", isHoliday := false, holidayName := none,
          shifts := { morning := none,
                      afternoon := { icu := none, general := none },
                      night := { icu := none, general := none } } }] :
        List DailySchedule).get ⟨1, by decide⟩).date ≠ "2024-01-03" →
      (updateSchedule
        [{ date := "2024-01-03", isHoliday := false, holidayName := none,
           shifts := { morning := none,
                       afternoon := { icu := none, general := none },
                       night := { icu := none, general := none } } },
         { date := "2024-01-04", isHoliday := false, holidayName := none,
           shifts := { morning := none,
                       afternoon := { icu := none, general := none },
                       night := { icu := none, general := none } } }]
        "2024-01-03" ShiftName.afternoon Ward.icu "doc9").get ⟨1, by decide⟩
      = ([{ date := "2024-01-03", isHoliday := false, holidayName := none,
            shifts := { morning := none,
                        afternoon := { icu := none, general := none },
                        night := { icu := none, general := none } } },
          { date := "2024-01-04", isHoliday := false, holidayName := none,
            shifts := { morning := none,
                        afternoon := { icu := none, general := none },
                        night := { icu := none, general := none } } }] :
          List DailySchedule).get ⟨1, by decide⟩)
    ∧ ((updateSchedule
        [{ date := "2024-01-03", isHoliday := false, holidayName := none,
           shifts := { morning := none,
                       afternoon := { icu := none, general := none },
                       night := { icu := none, general := none } } },
         { date := "2024-01-04", isHoliday := false, holidayName := none,
           shifts := { morning := none,
                       afternoon := { icu := none, general := none },
                       night := { icu := none, general := none } } }]
        "2024-01-03" ShiftName.afternoon Ward.icu "doc9").get
        ⟨1, by decide⟩).date
      = (([{ date := "2024-01-03", isHoliday := false, holidayName := none,
             shifts := { morning := none,
                         afternoon := { icu := none, general := none },
                         night := { icu := none, general := none } } },
           { date := "2024-01-04", isHoliday := false, holidayName := none,
             shifts := { morning := none,
                         afternoon := { icu := none, general := none },
                         night := { icu := none, general := none } } }] :
           List DailySchedule).get ⟨1, by decide⟩).date
    ∧ ((updateSchedule
        [{ date := "2024-01-03", isHoliday := false, holidayName := none,
           shifts := { morning := none,
                       afternoon := { icu := none, general := none },
                       night := { icu := none, general := none } } },
         { date := "2024-01-04", isHoliday := false, holidayName := none,
           shifts := { morning := none,
                       afternoon := { icu := none, general := none },
                       night := { icu := none, general := none } } }]
        "2024-01-03" ShiftName.afternoon Ward.icu "doc9").get
        ⟨1, by decide⟩).isHoliday
      = (([{ date := "2024-01-03", isHoliday := false, holidayName := none,
             shifts := { morning := none,
                         afternoon := { icu := none, general := none },
                         night := { icu := none, general := none } } },
           { date := "2024-01-04", isHoliday := false, holidayName := none,
             shifts := { morning := none,
                         afternoon := { icu := none, general := none },
                         night := { icu := none, general := none } } }] :
           List DailySchedule).get ⟨1, by decide⟩).isHoliday
    ∧ ((updateSchedule
        [{ date := "2024-01-03", isHoliday := false, holidayName := none,
           shifts := { morning := none,
                       afternoon := { icu := none, general := none },
                       night := { icu := none, general := none } } },
         { date := "2024-01-04", isHoliday := false, holidayName := none,
           shifts := { morning := none,
                       afternoon := { icu := none, general := none },
                       night := { icu := none, general := none } } }]
        "2024-01-03" ShiftName.afternoon Ward.icu "doc9").get
        ⟨1, by decide⟩).holidayName
      = (([{ date := "2024-01-03", isHoliday := false, holidayName := none,
             shifts := { morning := none,
                         afternoon := { icu := none, general := none },
                         night := { icu := none, general := none } } },
           { date := "2024-01-04", isHoliday := false, holidayName := none,
             shifts := { morning := none,
                         afternoon := { icu := none, general := none },
                         night := { icu := none, general := none } } }] :
           List DailySchedule).get ⟨1, by decide⟩).holidayName :=
  updateSchedule_frame _ "2024-01-03" ShiftName.afternoon Ward.icu "doc9" 1
    (by decide) (by decide)

/-- C10: calling the edit operation with `shift = morning` on a day
whose `shifts` carry no Morning pair is not a no-op: it falls into the
final branch of `updateSchedule` and writes the doctor id into the
Night slot of the given ward, leaving the Morning pair (absent), the
Afternoon pair, and the other Night side unchanged. -/
theorem updateSchedule_morning_without_pair
    (roster : List DailySchedule) (d : String) (w : Ward)
    (doctorId : String) (i : Nat) (hi : i < roster.length)
    (hdate : (roster.get ⟨i, hi⟩).date = d)
    (hm : (roster.get ⟨i, hi⟩).shifts.morning = none)
    (hi' : i < (updateSchedule roster d ShiftName.morning w doctorId).length) :
    slotRead ((updateSchedule roster d ShiftName.morning w doctorId).get
        ⟨i, hi'⟩).shifts ShiftName.night w = some doctorId
    ∧ ((updateSchedule roster d ShiftName.morning w doctorId).get
        ⟨i, hi'⟩).shifts.morning = (roster.get ⟨i, hi⟩).shifts.morning
    ∧ ((updateSchedule roster d ShiftName.morning w doctorId).get
        ⟨i, hi'⟩).shifts.afternoon = (roster.get ⟨i, hi⟩).shifts.afternoon
    ∧ getPair ((updateSchedule roster d ShiftName.morning w doctorId).get
        ⟨i, hi'⟩).shifts.night (otherWard w)
      = getPair (roster.get ⟨i, hi⟩).shifts.night (otherWard w) := by
  rw [updateSchedule_get roster d ShiftName.morning w doctorId i hi hi']
  rw [editDay, if_pos hdate]
  simp only [List.get_eq_getElem] at hm ⊢
  cases w <;>
    simp [applyShiftEdit, hm, slotRead, getPair, setPair, otherWard]

/-- Witness for C10 at a concrete synthesized weekday (no Morning pair). -/
theorem updateSchedule_morning_without_pair_witness :
    slotRead ((updateSchedule
        [{ date := "2024-01-03", isHoliday := false, holidayName := none,
           shifts := { morning := none,
                       afternoon := { icu := some "a", general := some "b" },
                       night := { icu := some "a", general := some "b" } } }]
        "2024-01-03" ShiftName.morning Ward.general "doc7").get
        ⟨0, by decide⟩).shifts ShiftName.night Ward.general = some "doc7"
    ∧ ((updateSchedule
        [{ date := "2024-01-03", isHoliday := false, holidayName := none,
           shifts := { morning := none,
                       afternoon := { icu := some "a", general := some "b" },
                       night := { icu := some "a", general := some "b" } } }]
        "2024-01-03" ShiftName.morning Ward.general "doc7").get
        ⟨0, by decide⟩).shifts.morning
      = (([{ date := "2024-01-03", isHoliday := false, holidayName := none,
             shifts := { morning := none,
                         afternoon := { icu := some "a", general := some "b" },
                         night := { icu := some "a", general := some "b" } } }] :
           List DailySchedule).get ⟨0, by decide⟩).shifts.morning
    ∧ ((updateSchedule
        [{ date := "2024-01-03", isHoliday := false, holidayName := none,
           shifts := { morning := none,
                       afternoon := { icu := some "a", general := some "b" },
                       night := { icu := some "a", general := some "b" } } }]
        "2024-01-03" ShiftName.morning Ward.general "doc7").get
        ⟨0, by decide⟩).shifts.afternoon
      = (([{ date := "2024-01-03", isHoliday := false, holidayName := none,
             shifts := { morning := none,
                         afternoon := { icu := some "a", general := some "b" },
                         night := { icu := some "a", general := some "b" } } }] :
           List DailySchedule).get ⟨0, by decide⟩).shifts.afternoon
    ∧ getPair ((updateSchedule
        [{ date := "2024-01-03", isHoliday := false, holidayName := none,
           shifts := { morning := none,
                       afternoon := { icu := some "a", general := some "b" },
                       night := { icu := some "a", general := some "b" } } }]
        "2024-01-03" ShiftName.morning Ward.general "doc7").get
        ⟨0, by decide⟩).shifts.night (otherWard Ward.general)
      = getPair (([{ date := "2024-01-03", isHoliday := false,
                     holidayName := none,
                     shifts := { morning := none,
                                 afternoon := { icu := some "a", general := some "b" },
                                 night := { icu := some "a", general := some "b" } } }] :
           List DailySchedule).get ⟨0, by decide⟩).shifts.night
          (otherWard Ward.general) :=
  updateSchedule_morning_without_pair _ "2024-01-03" Ward.general "doc7" 0
    (by decide) (by decide) (by decide) (by decide)

/-- The continuity condition of one day: per ward, the Afternoon
occupant equals the Night occupant. -/
def continuityDay (day : DailySchedule) : Prop :=
  day.shifts.afternoon.icu = day.shifts.night.icu
  ∧ day.shifts.afternoon.general = day.shifts.night.general

instance (day : DailySchedule) : Decidable (continuityDay day) := by
  unfold continuityDay; infer_instance

/-- Continuity over a whole roster. -/
def continuityRoster (r : List DailySchedule) : Prop :=
  ∀ day ∈ r, continuityDay day

instance (r : List DailySchedule) : Decidable (continuityRoster r) := by
  unfold continuityRoster; infer_instance

/-- One call of the edit operation, for phrasing edit sequences. -/
structure EditOp where
  date : String
  shift : ShiftName
  ward : Ward
  doctorId : String
deriving DecidableEq, Repr

/-- A sequence of `updateSchedule` calls applied in order. -/
def applyEdits (r : List DailySchedule) (es : List EditOp) :
    List DailySchedule :=
  es.foldl (fun acc e => updateSchedule acc e.date e.shift e.ward e.doctorId) r

/-- Counterexample to C3: a roster satisfying continuity on every day,
to which a single Night edit (which has no cascade in the source) is
applied, no longer satisfies continuity. -/
theorem updateSchedule_night_edit_breaks_continuity :
    continuityRoster
      [{ date := "2024-01-03", isHoliday := false, holidayName := none,
         shifts := { morning := none,
                     afternoon := { icu := some "a", general := some "b" },
                     night := { icu := some "a", general := some "b" } } }]
    ∧ ¬ continuityRoster
        (applyEdits
          [{ date := "2024-01-03", isHoliday := false, holidayName := none,
             shifts := { morning := none,
                         afternoon := { icu := some "a", general := some "b" },
                         night := { icu := some "a", general := some "b" } } }]
          [{ date := "2024-01-03", shift := ShiftName.night,
             ward := Ward.icu, doctorId := "c" }]) := by
  decide

/-- An edit that the cascade keeps continuity-safe: an Afternoon edit,
or a Morning edit targeting a date all of whose roster days carry a
Morning pair (so the cross-ward cascade fires rather than the bare
Night write). -/
def safeEdit (r : List DailySchedule) (e : EditOp) : Prop :=
  e.shift = ShiftName.afternoon
  ∨ (e.shift = ShiftName.morning
     ∧ ∀ day ∈ r, day.date = e.date → day.shifts.morning.isSome)

instance (r : List DailySchedule) (e : EditOp) : Decidable (safeEdit r e) := by
  unfold safeEdit; infer_instance

lemma editDay_date_eq (d : String) (sh : ShiftName) (w : Ward)
    (doctorId : String) (day : DailySchedule) :
    (editDay d sh w doctorId day).date = day.date := by
  unfold editDay; split <;> rfl

lemma applyShiftEdit_morning_isSome (s : Shifts) (sh : ShiftName)
    (w : Ward) (doctorId : String) :
    (applyShiftEdit s sh w doctorId).morning.isSome = s.morning.isSome := by
  cases sh <;> rcases hm : s.morning with _ | m <;> cases w <;>
    simp [applyShiftEdit, hm]

lemma editDay_morning_isSome (d : String) (sh : ShiftName) (w : Ward)
    (doctorId : String) (day : DailySchedule) :
    (editDay d sh w doctorId day).shifts.morning.isSome
      = day.shifts.morning.isSome := by
  unfold editDay
  split
  · exact applyShiftEdit_morning_isSome day.shifts sh w doctorId
  · rfl

lemma editDay_preserves_continuity (d : String) (sh : ShiftName) (w : Ward)
    (doctorId : String) (day : DailySchedule)
    (hday : continuityDay day)
    (hsafe : sh = ShiftName.afternoon
      ∨ (sh = ShiftName.morning
         ∧ (day.date = d → day.shifts.morning.isSome))) :
    continuityDay (editDay d sh w doctorId day) := by
  unfold editDay
  split
  case isFalse => exact hday
  case isTrue hdate =>
    obtain ⟨h1, h2⟩ := hday
    rcases hsafe with hA | ⟨hM, hMor⟩
    · subst hA
      cases w <;> simp [applyShiftEdit, continuityDay, setPair, h1, h2]
    · subst hM
      obtain ⟨m, hm⟩ := Option.isSome_iff_exists.mp (hMor hdate)
      cases w <;> simp [applyShiftEdit, hm, continuityDay, setPair, h1, h2]

lemma safeEdit_updateSchedule (r : List DailySchedule) (d : String)
    (sh : ShiftName) (w : Ward) (doctorId : String) (e : EditOp)
    (h : safeEdit r e) : safeEdit (updateSchedule r d sh w doctorId) e := by
  rcases h with hA | ⟨hM, hall⟩
  · exact Or.inl hA
  · refine Or.inr ⟨hM, ?_⟩
    intro day' hmem' hdate'
    obtain ⟨day, hday, rfl⟩ := List.mem_map.mp hmem'
    rw [editDay_morning_isSome]
    exact hall day hday (by rwa [editDay_date_eq] at hdate')

/-- C3 amended: continuity is preserved by every sequence of edits in
which each edit is an Afternoon edit or a Morning edit on a date whose
roster days all carry a Morning pair.  (As stated, C3 fails: a Night
edit has no cascade, see
`updateSchedule_night_edit_breaks_continuity`.) -/
theorem applyEdits_safe_preserves_continuity (r : List DailySchedule)
    (es : List EditOp) (hr : continuityRoster r)
    (hsafe : ∀ e ∈ es, safeEdit r e) :
    continuityRoster (applyEdits r es) := by
  induction es generalizing r with
  | nil => exact hr
  | cons e es ih =>
      have hr' : continuityRoster
          (updateSchedule r e.date e.shift e.ward e.doctorId) := by
        intro day' hmem'
        obtain ⟨day, hday, rfl⟩ := List.mem_map.mp hmem'
        refine editDay_preserves_continuity _ _ _ _ _ (hr day hday) ?_
        rcases hsafe e (List.mem_cons_self e es) with hA | ⟨hM, hall⟩
        · exact Or.inl hA
        · exact Or.inr ⟨hM, hall day hday⟩
      have hsafe' : ∀ e' ∈ es,
          safeEdit (updateSchedule r e.date e.shift e.ward e.doctorId) e' :=
        fun e' hmem =>
          safeEdit_updateSchedule r e.date e.shift e.ward e.doctorId e'
            (hsafe e' (List.mem_cons_of_mem e hmem))
      exact ih _ hr' hsafe'

/-- Witness for the amended C3: a concrete continuity-respecting roster
and a concrete safe edit sequence (one Afternoon edit, one Morning edit
on a holiday day) still satisfy continuity afterwards. -/
theorem applyEdits_safe_preserves_continuity_witness :
    continuityRoster
      (applyEdits
        [{ date := "2024-01-06", isHoliday := true, holidayName := none,
           shifts := { morning := some { icu := some "x", general := some "y" },
                       afternoon := { icu := some "y", general := some "x" },
                       night := { icu := some "y", general := some "x" } } }]
        [{ date := "2024-01-06", shift := ShiftName.afternoon,
           ward := Ward.general, doctorId := "z" },
         { date := "2024-01-06", shift := ShiftName.morning,
           ward := Ward.icu, doctorId := "w" }]) :=
  applyEdits_safe_preserves_continuity _ _ (by decide) (by decide)

/-- Gregorian leap year, as used by the JS Date object. -/
def isLeapYear (y : Nat) : Bool :=
  (y % 4 == 0 && y % 100 != 0) || y % 400 == 0

/-- date-fns `getDaysInMonth` for the 0-indexed month `m` of year `y`. -/
def daysInMonth (y m : Nat) : Nat :=
  match m with
  | 1 => if isLeapYear y then 29 else 28
  | 3 => 30
  | 5 => 30
  | 8 => 30
  | 10 => 30
  | _ => 31

/-- JS `Date.getDay` (0 = Sunday … 6 = Saturday) for year `y`,
1-indexed month `m1`, day `d`, via Zeller's congruence. -/
def dayOfWeek (y m1 d : Nat) : Nat :=
  let yz := if m1 < 3 then y - 1 else y
  let mz := if m1 < 3 then m1 + 12 else m1
  let K := yz % 100
  let J := yz / 100
  let h := (d + (13 * (mz + 1)) / 5 + K + K / 4 + J / 4 + 5 * J) % 7
  (h + 6) % 7

/-- Zero-pad to two digits. -/
def pad2 (n : Nat) : String :=
  if n < 10 then "0" ++ toString n else toString n

/-- Zero-pad to four digits. -/
def pad4 (n : Nat) : String :=
  if n < 10 then "000" ++ toString n
  else if n < 100 then "00" ++ toString n
  else if n < 1000 then "0" ++ toString n
  else toString n

/-- date-fns `format(date, 'yyyy-MM-dd')`; `m1` is the 1-indexed month. -/
def formatDate (y m1 d : Nat) : String :=
  pad4 y ++ "-" ++ pad2 m1 ++ "-" ++ pad2 d

/-- Characters of `s` before the first `'T'`. -/
def splitTAux : List Char → List Char
  | [] => []
  | c :: cs => if c = 'T' then [] else c :: splitTAux cs

/-- JS `s.split('T')[0]`: the prefix of `s` before the first `'T'`. -/
def splitT (s : String) : String :=
  String.mk (splitTAux s.data)

/-- A custom holiday entry `(date, name)` of the month config. -/
structure Holiday where
  date : String
  name : String
deriving DecidableEq, Repr

/-- The month config (`ScheduleConfig` in the source): `month` is
0-indexed as in JS. -/
structure ScheduleConfig where
  year : Nat
  month : Nat
  customHolidays : List Holiday
deriving DecidableEq, Repr

/-- A persisted day record as fetched from the DB: its `shifts` object
may be missing (the source guards with `existingDay.shifts || …`). -/
structure DbDay where
  date : String
  isHoliday : Bool
  holidayName : Option String
  shifts : Option Shifts
deriving DecidableEq, Repr

/-- The `dateStr` computed for day `i` (1-indexed) of the configured
month (src/App.tsx lines 144-145). -/
def syncDateStr (cfg : ScheduleConfig) (i : Nat) : String :=
  formatDate cfg.year (cfg.month + 1) i

/-- `dayOfWeek === 0 || dayOfWeek === 6` (src/App.tsx lines 146-147). -/
def syncIsWeekend (cfg : ScheduleConfig) (i : Nat) : Bool :=
  dayOfWeek cfg.year (cfg.month + 1) i == 0
  || dayOfWeek cfg.year (cfg.month + 1) i == 6

/-- `config.customHolidays.find(h => h.date === dateStr)`
(src/App.tsx line 148). -/
def findCustomHoliday (cfg : ScheduleConfig) (i : Nat) : Option Holiday :=
  cfg.customHolidays.find? (fun h => h.date == syncDateStr cfg i)

/-- `isWeekendDay || !!customHoliday` (src/App.tsx line 149). -/
def syncIsHoliday (cfg : ScheduleConfig) (i : Nat) : Bool :=
  syncIsWeekend cfg i || (findCustomHoliday cfg i).isSome

/-- The default `shifts` object synthesized by the sync loop
(src/App.tsx lines 159-163 and 170-174). -/
def defaultShifts (isHol : Bool) : Shifts :=
  { morning := if isHol then some { icu := none, general := none } else none,
    afternoon := { icu := none, general := none },
    night := { icu := none, general := none } }

/-- `dbSchedule.find(s => s.date.split('T')[0] === dateStr)`
(src/App.tsx line 152). -/
def findDbDay (db : List DbDay) (dateStr : String) : Option DbDay :=
  db.find? (fun s => splitT s.date == dateStr)

/-- The body of the `for` loop of `syncScheduleWithDb`
(src/App.tsx lines 143-177) for day `i` (1-indexed): merge the
persisted record when one exists, else synthesize a fresh day. -/
def syncDay (cfg : ScheduleConfig) (db : List DbDay) (i : Nat) :
    DailySchedule :=
  match findDbDay db (syncDateStr cfg i) with
  | some existingDay =>
      { date := existingDay.date,
        isHoliday := syncIsHoliday cfg i,
        holidayName := (findCustomHoliday cfg i).map Holiday.name,
        shifts := existingDay.shifts.getD
          (defaultShifts (syncIsHoliday cfg i)) }
  | none =>
      { date := syncDateStr cfg i,
        isHoliday := syncIsHoliday cfg i,
        holidayName := (findCustomHoliday cfg i).map Holiday.name,
        shifts := defaultShifts (syncIsHoliday cfg i) }

/-- The month-roster synthesis `syncScheduleWithDb`
(src/App.tsx lines 133-186): one merged day per calendar day of the
configured month. -/
def syncScheduleWithDb (cfg : ScheduleConfig) (db : List DbDay) :
    List DailySchedule :=
  (List.range (daysInMonth cfg.year cfg.month)).map
    (fun i0 => syncDay cfg db (i0 + 1))

example : dayOfWeek 2024 1 1 = 1 := by decide
example : dayOfWeek 2024 1 6 = 6 := by decide
example : syncDateStr { year := 2024, month := 0, customHolidays := [] } 1
    = "2024-01-01" := by decide

/-- Counterexample to C5: a persisted record for 2024-01-01 (a Monday,
no custom holiday) carrying a `shifts` object with a Morning pair is
kept verbatim by the synthesis, so the produced day is a non-holiday
day that still has a Morning pair. -/
theorem syncScheduleWithDb_morning_iff_fails :
    ((syncScheduleWithDb { year := 2024, month := 0, customHolidays := [] }
        [{ date := "2024-01-01", isHoliday := true, holidayName := none,
           shifts := some { morning := some { icu := some "d1", general := some "d2" },
                            afternoon := { icu := none, general := none },
                            night := { icu := none, general := none } } }]).get? 0).map
      (fun day => (day.isHoliday, day.shifts.morning.isSome))
    = some (false, true) := by
  decide

/-- C5 amended: the synthesis always recomputes the holiday flag; a day
whose persisted record is absent or carries no `shifts` object gets the
synthesized shape, whose Morning pair exists iff the day is a holiday
and whose Afternoon/Night pairs are empty; a persisted record that
carries a `shifts` object keeps it verbatim (so persisted
Afternoon/Night assignments are preserved, but its Morning shape is not
re-derived from the holiday set). -/
theorem syncScheduleWithDb_shape (cfg : ScheduleConfig) (db : List DbDay)
    (i : Nat) (hi : i < (syncScheduleWithDb cfg db).length) :
    ((syncScheduleWithDb cfg db).get ⟨i, hi⟩).isHoliday
        = syncIsHoliday cfg (i + 1)
    ∧ ((findDbDay db (syncDateStr cfg (i + 1))).elim True
          (fun e => e.shifts = none) →
        ((syncScheduleWithDb cfg db).get ⟨i, hi⟩).shifts.morning.isSome
            = ((syncScheduleWithDb cfg db).get ⟨i, hi⟩).isHoliday
        ∧ ((syncScheduleWithDb cfg db).get ⟨i, hi⟩).shifts.afternoon
            = { icu := none, general := none }
        ∧ ((syncScheduleWithDb cfg db).get ⟨i, hi⟩).shifts.night
            = { icu := none, general := none })
    ∧ (∀ e sh, findDbDay db (syncDateStr cfg (i + 1)) = some e →
        e.shifts = some sh →
        ((syncScheduleWithDb cfg db).get ⟨i, hi⟩).shifts = sh) := by
  have hget : (syncScheduleWithDb cfg db).get ⟨i, hi⟩ = syncDay cfg db (i + 1) := by
    simp [syncScheduleWithDb, List.get_eq_getElem, List.getElem_map,
      List.getElem_range]
  rw [hget]
  rcases hfind : findDbDay db (syncDateStr cfg (i + 1)) with _ | e
  · refine ⟨?_, ?_, ?_⟩
    · simp [syncDay, hfind]
    · intro _
      rcases hHol : syncIsHoliday cfg (i + 1) with _ | _ <;>
        simp [syncDay, hfind, defaultShifts, hHol]
    · intro e sh he
      simp at he
  · rcases hsh : e.shifts with _ | sh
    · refine ⟨?_, ?_, ?_⟩
      · simp [syncDay, hfind]
      · intro _
        rcases hHol : syncIsHoliday cfg (i + 1) with _ | _ <;>
          simp [syncDay, hfind, hsh, defaultShifts, hHol]
      · intro e' sh' he' hsh'
        injection he' with h
        subst h
        rw [hsh] at hsh'
        cases hsh'
    · refine ⟨?_, ?_, ?_⟩
      · simp [syncDay, hfind]
      · intro habs
        simp only [Option.elim_some] at habs
        rw [hsh] at habs
        cases habs
      · intro e' sh' he' hsh'
        injection he' with h
        subst h
        rw [hsh] at hsh'
        injection hsh' with h2
        subst h2
        simp [syncDay, hfind, hsh]

/-- Witness for the amended C5 at a concrete config and empty DB. -/
theorem syncScheduleWithDb_shape_witness :
    ((syncScheduleWithDb { year := 2024, month := 0, customHolidays := [] }
        []).get ⟨0, by decide⟩).isHoliday
        = syncIsHoliday { year := 2024, month := 0, customHolidays := [] } 1
    ∧ ((findDbDay []
          (syncDateStr { year := 2024, month := 0, customHolidays := [] } 1)).elim
          True (fun e => e.shifts = none) →
        ((syncScheduleWithDb { year := 2024, month := 0, customHolidays := [] }
            []).get ⟨0, by decide⟩).shifts.morning.isSome
            = ((syncScheduleWithDb { year := 2024, month := 0, customHolidays := [] }
                []).get ⟨0, by decide⟩).isHoliday
        ∧ ((syncScheduleWithDb { year := 2024, month := 0, customHolidays := [] }
            []).get ⟨0, by decide⟩).shifts.afternoon
            = { icu := none, general := none }
        ∧ ((syncScheduleWithDb { year := 2024, month := 0, customHolidays := [] }
            []).get ⟨0, by decide⟩).shifts.night
            = { icu := none, general := none })
    ∧ (∀ e sh, findDbDay []
          (syncDateStr { year := 2024, month := 0, customHolidays := [] } 1)
          = some e →
        e.shifts = some sh →
        ((syncScheduleWithDb { year := 2024, month := 0, customHolidays := [] }
            []).get ⟨0, by decide⟩).shifts = sh) :=
  syncScheduleWithDb_shape { year := 2024, month := 0, customHolidays := [] }
    [] 0 (by decide)

/-- Save-status indicator (`SaveStatus` in the source, src/App.tsx
line 15). -/
inductive SaveState : Type
  | saved
  | saving
  | unsaved
  | error
deriving DecidableEq, Repr

/-- A physician (`Doctor` in the source; fields per the data model:
identity, display name, phone, active flag, unavailable ISO dates, and
a presentation color). -/
structure Doctor where
  id : String
  name : String
  phone : String
  active : Bool
  unavailableDates : List String
  color : String
deriving DecidableEq, Repr

/-- The App component state relevant to the save synchronizer
(src/App.tsx lines 17-41), with the observables a shallow embedding
needs: `timer` is the pending debounce timeout together with the
schedule captured by its closure, `inflight` is the payload of the
flush currently awaited by the debounce callback, and `flushLog`
records every flush issued to `dataService.saveSchedule`, in order. -/
structure AppState where
  user : Option String
  doctors : List Doctor
  config : ScheduleConfig
  schedule : List DailySchedule
  scheduleDirtyRef : Bool
  timer : Option (List DailySchedule)
  inflight : Option (List DailySchedule)
  isSaving : Bool
  saveStatus : SaveState
  flushLog : List (List DailySchedule)
deriving DecidableEq, Repr

/-- The schedule auto-save debounce effect (src/App.tsx lines 100-125)
as it runs after a schedule change with data loaded: the cleanup of the
previous effect clears any pending timer; then, if the schedule is
non-empty and the dirty ref is set, the status becomes `unsaved` and a
new timer is armed capturing the current schedule. -/
def scheduleEffect (st : AppState) : AppState :=
  let st0 : AppState := { st with timer := none }
  if 0 < st0.schedule.length ∧ st0.scheduleDirtyRef = true then
    { st0 with saveStatus := SaveState.unsaved, timer := some st0.schedule }
  else st0

/-- One `updateSchedule` call as an event (src/App.tsx lines 194-227)
followed by the re-render's debounce effect: under the admin guard it
applies the roster transform, sets the dirty ref, marks the status
`unsaved`, and re-arms the debounce. -/
def editStep (st : AppState) (e : EditOp) : AppState :=
  if st.user = some "admin" then
    scheduleEffect
      { st with
        schedule := updateSchedule st.schedule e.date e.shift e.ward e.doctorId,
        scheduleDirtyRef := true,
        saveStatus := SaveState.unsaved }
  else st

/-- The debounce timer firing (src/App.tsx lines 111-116 entering
`saveScheduleToDb`, lines 80-83): the captured schedule is flushed,
`isSaving` is set and the status becomes `saving`; the flush is now in
flight. -/
def timerFire (st : AppState) : AppState :=
  match st.timer with
  | none => st
  | some s =>
      { st with timer := none, isSaving := true,
                saveStatus := SaveState.saving,
                inflight := some s, flushLog := st.flushLog ++ [s] }

/-- Completion of the in-flight debounce-initiated flush
(src/App.tsx lines 84-97 and the callback lines 112-115): on success
the status becomes `saved` and the callback clears the dirty ref; on
failure the status becomes `error`; `isSaving` is reset either way. -/
def flushComplete (st : AppState) (ok : Bool) : AppState :=
  match st.inflight with
  | none => st
  | some _ =>
      if ok then
        { st with inflight := none, isSaving := false,
                  saveStatus := SaveState.saved, scheduleDirtyRef := false }
      else
        { st with inflight := none, isSaving := false,
                  saveStatus := SaveState.error }

/-- The month/year wrap-around of `cycleMonth`
(src/App.tsx lines 300-310). -/
def cycleConfig (cfg : ScheduleConfig) (dirNext : Bool) : ScheduleConfig :=
  if dirNext then
    if cfg.month + 1 > 11 then
      { cfg with month := 0, year := cfg.year + 1 }
    else
      { cfg with month := cfg.month + 1 }
  else
    if cfg.month = 0 then
      { cfg with month := 11, year := cfg.year - 1 }
    else
      { cfg with month := cfg.month - 1 }

/-- `cycleMonth` (src/App.tsx lines 282-311), modelled atomically with
the outcome `ok` of its awaited `saveScheduleToDb` call: a no-op while
`isSaving`; when dirty it cancels the pending debounce timer, issues a
blocking flush of the current schedule and proceeds to the new config
only on success (clearing the dirty ref), leaving the config unchanged
and the status `error` on failure; when clean it navigates without
flushing. -/
def cycleMonth (st : AppState) (dirNext : Bool) (ok : Bool) : AppState :=
  if st.isSaving then st
  else if st.scheduleDirtyRef then
    let st1 : AppState :=
      { st with timer := none, flushLog := st.flushLog ++ [st.schedule] }
    if ok then
      { st1 with isSaving := false, saveStatus := SaveState.saved,
                 scheduleDirtyRef := false,
                 config := cycleConfig st.config dirNext }
    else
      { st1 with isSaving := false, saveStatus := SaveState.error }
  else
    { st with config := cycleConfig st.config dirNext }

/-- `handleLogout` (src/App.tsx lines 318-320): it only clears the
user; it neither cancels the debounce timer nor issues any flush. -/
def handleLogout (st : AppState) : AppState :=
  { st with user := none }

/-- C6 amended (month-navigation part): on a dirty state with no flush
in flight, `cycleMonth` cancels the pending debounce timer and issues
exactly one flush carrying the current (latest) schedule; on success
the config advances and the dirty ref clears; on failure the config is
unchanged and the failure is surfaced as status `error`, so the dirty
roster is not silently discarded. -/
theorem cycleMonth_forced_flush (st : AppState) (dirNext ok : Bool)
    (hd : st.scheduleDirtyRef = true) (hs : st.isSaving = false) :
    (cycleMonth st dirNext ok).flushLog = st.flushLog ++ [st.schedule]
    ∧ (cycleMonth st dirNext ok).timer = none
    ∧ (ok = true →
        (cycleMonth st dirNext ok).config = cycleConfig st.config dirNext
        ∧ (cycleMonth st dirNext ok).scheduleDirtyRef = false)
    ∧ (ok = false →
        (cycleMonth st dirNext ok).config = st.config
        ∧ (cycleMonth st dirNext ok).saveStatus = SaveState.error) := by
  cases ok <;> simp [cycleMonth, hd, hs]

/-- Witness for the amended C6 at a concrete dirty state. -/
theorem cycleMonth_forced_flush_witness :
    (cycleMonth
      { user := some "admin", doctors := [],
        config := { year := 2024, month := 0, customHolidays := [] },
        schedule := [{ date := "2024-01-03", isHoliday := false,
                       holidayName := none,
                       shifts := { morning := none,
                                   afternoon := { icu := some "a", general := some "b" },
                                   night := { icu := some "a", general := some "b" } } }],
        scheduleDirtyRef := true,
        timer := some [{ date := "2024-01-03", isHoliday := false,
                         holidayName := none,
                         shifts := { morning := none,
                                     afternoon := { icu := some "a", general := some "b" },
                                     night := { icu := some "a", general := some "b" } } }],
        inflight := none, isSaving := false,
        saveStatus := SaveState.unsaved, flushLog := [] }
      true false).flushLog
      = [] ++ [[{ date := "2024-01-03", isHoliday := false,
                  holidayName := none,
                  shifts := { morning := none,
                              afternoon := { icu := some "a", general := some "b" },
                              night := { icu := some "a", general := some "b" } } }]]
    ∧ (cycleMonth
      { user := some "admin", doctors := [],
        config := { year := 2024, month := 0, customHolidays := [] },
        schedule := [{ date := "2024-01-03", isHoliday := false,
                       holidayName := none,
                       shifts := { morning := none,
                                   afternoon := { icu := some "a", general := some "b" },
                                   night := { icu := some "a", general := some "b" } } }],
        scheduleDirtyRef := true,
        timer := some [{ date := "2024-01-03", isHoliday := false,
                         holidayName := none,
                         shifts := { morning := none,
                                     afternoon := { icu := some "a", general := some "b" },
                                     night := { icu := some "a", general := some "b" } } }],
        inflight := none, isSaving := false,
        saveStatus := SaveState.unsaved, flushLog := [] }
      true false).timer = none
    ∧ (false = true →
        (cycleMonth
          { user := some "admin", doctors := [],
            config := { year := 2024, month := 0, customHolidays := [] },
            schedule := [{ date := "2024-01-03", isHoliday := false,
                           holidayName := none,
                           shifts := { morning := none,
                                       afternoon := { icu := some "a", general := some "b" },
                                       night := { icu := some "a", general := some "b" } } }],
            scheduleDirtyRef := true,
            timer := some [{ date := "2024-01-03", isHoliday := false,
                             holidayName := none,
                             shifts := { morning := none,
                                         afternoon := { icu := some "a", general := some "b" },
                                         night := { icu := some "a", general := some "b" } } }],
            inflight := none, isSaving := false,
            saveStatus := SaveState.unsaved, flushLog := [] }
          true false).config
          = cycleConfig { year := 2024, month := 0, customHolidays := [] } true
        ∧ (cycleMonth
          { user := some "admin", doctors := [],
            config := { year := 2024, month := 0, customHolidays := [] },
            schedule := [{ date := "2024-01-03", isHoliday := false,
                           holidayName := none,
                           shifts := { morning := none,
                                       afternoon := { icu := some "a", general := some "b" },
                                       night := { icu := some "a", general := some "b" } } }],
            scheduleDirtyRef := true,
            timer := some [{ date := "2024-01-03", isHoliday := false,
                             holidayName := none,
                             shifts := { morning := none,
                                         afternoon := { icu := some "a", general := some "b" },
                                         night := { icu := some "a", general := some "b" } } }],
            inflight := none, isSaving := false,
            saveStatus := SaveState.unsaved, flushLog := [] }
          true false).scheduleDirtyRef = false)
    ∧ (false = false →
        (cycleMonth
          { user := some "admin", doctors := [],
            config := { year := 2024, month := 0, customHolidays := [] },
            schedule := [{ date := "2024-01-03", isHoliday := false,
                           holidayName := none,
                           shifts := { morning := none,
                                       afternoon := { icu := some "a", general := some "b" },
                                       night := { icu := some "a", general := some "b" } } }],
            scheduleDirtyRef := true,
            timer := some [{ date := "2024-01-03", isHoliday := false,
                             holidayName := none,
                             shifts := { morning := none,
                                         afternoon := { icu := some "a", general := some "b" },
                                         night := { icu := some "a", general := some "b" } } }],
            inflight := none, isSaving := false,
            saveStatus := SaveState.unsaved, flushLog := [] }
          true false).config
          = { year := 2024, month := 0, customHolidays := [] }
        ∧ (cycleMonth
          { user := some "admin", doctors := [],
            config := { year := 2024, month := 0, customHolidays := [] },
            schedule := [{ date := "2024-01-03", isHoliday := false,
                           holidayName := none,
                           shifts := { morning := none,
                                       afternoon := { icu := some "a", general := some "b" },
                                       night := { icu := some "a", general := some "b" } } }],
            scheduleDirtyRef := true,
            timer := some [{ date := "2024-01-03", isHoliday := false,
                             holidayName := none,
                             shifts := { morning := none,
                                         afternoon := { icu := some "a", general := some "b" },
                                         night := { icu := some "a", general := some "b" } } }],
            inflight := none, isSaving := false,
            saveStatus := SaveState.unsaved, flushLog := [] }
          true false).saveStatus = SaveState.error) :=
  cycleMonth_forced_flush _ true false rfl rfl

/-- Counterexample to C6's logout clause: on a dirty state with a
pending debounce timer, `handleLogout` issues no flush (and does not
even cancel the timer); it only clears the user. -/
theorem handleLogout_flushes_nothing :
    ({ user := some "admin", doctors := [],
       config := { year := 2024, month := 0, customHolidays := [] },
       schedule := [{ date := "2024-01-03", isHoliday := false,
                      holidayName := none,
                      shifts := { morning := none,
                                  afternoon := { icu := some "a", general := some "b" },
                                  night := { icu := some "a", general := some "b" } } }],
       scheduleDirtyRef := true,
       timer := some [{ date := "2024-01-03", isHoliday := false,
                        holidayName := none,
                        shifts := { morning := none,
                                    afternoon := { icu := some "a", general := some "b" },
                                    night := { icu := some "a", general := some "b" } } }],
       inflight := none, isSaving := false,
       saveStatus := SaveState.unsaved, flushLog := [] } : AppState).scheduleDirtyRef
      = true
    ∧ (handleLogout
      { user := some "admin", doctors := [],
        config := { year := 2024, month := 0, customHolidays := [] },
        schedule := [{ date := "2024-01-03", isHoliday := false,
                       holidayName := none,
                       shifts := { morning := none,
                                   afternoon := { icu := some "a", general := some "b" },
                                   night := { icu := some "a", general := some "b" } } }],
        scheduleDirtyRef := true,
        timer := some [{ date := "2024-01-03", isHoliday := false,
                         holidayName := none,
                         shifts := { morning := none,
                                     afternoon := { icu := some "a", general := some "b" },
                                     night := { icu := some "a", general := some "b" } } }],
        inflight := none, isSaving := false,
        saveStatus := SaveState.unsaved, flushLog := [] }).flushLog = []
    ∧ (handleLogout
      { user := some "admin", doctors := [],
        config := { year := 2024, month := 0, customHolidays := [] },
        schedule := [{ date := "2024-01-03", isHoliday := false,
                       holidayName := none,
                       shifts := { morning := none,
                                   afternoon := { icu := some "a", general := some "b" },
                                   night := { icu := some "a", general := some "b" } } }],
        scheduleDirtyRef := true,
        timer := some [{ date := "2024-01-03", isHoliday := false,
                         holidayName := none,
                         shifts := { morning := none,
                                     afternoon := { icu := some "a", general := some "b" },
                                     night := { icu := some "a", general := some "b" } } }],
        inflight := none, isSaving := false,
        saveStatus := SaveState.unsaved, flushLog := [] }).user = none := by
  refine ⟨rfl, rfl, rfl⟩

/-- C7 (code bug): in the trace "edit a; debounce fires (flush of the
a-roster goes in flight); edit b arrives during `saving`; the in-flight
flush completes successfully", the source's debounce callback resets
`scheduleDirtyRef` to `false` although the b-edit is newer than the
flushed payload: at the mid-trace point the machine is saving and the
dirty ref was re-set by the b-edit, yet after completion the dirty ref
is `false` while the current schedule was never flushed. -/
theorem staleFlushResetsDirtyRef :
    ((editStep
        (timerFire
          (editStep
            { user := some "admin", doctors := [],
              config := { year := 2024, month := 0, customHolidays := [] },
              schedule := [{ date := "2024-01-03", isHoliday := false,
                             holidayName := none,
                             shifts := { morning := none,
                                         afternoon := { icu := none, general := none },
                                         night := { icu := none, general := none } } }],
              scheduleDirtyRef := false, timer := none, inflight := none,
              isSaving := false, saveStatus := SaveState.saved,
              flushLog := [] }
            { date := "2024-01-03", shift := ShiftName.afternoon,
              ward := Ward.icu, doctorId := "a" }))
        { date := "2024-01-03", shift := ShiftName.afternoon,
          ward := Ward.icu, doctorId := "b" }).isSaving = true
      ∧ (editStep
        (timerFire
          (editStep
            { user := some "admin", doctors := [],
              config := { year := 2024, month := 0, customHolidays := [] },
              schedule := [{ date := "2024-01-03", isHoliday := false,
                             holidayName := none,
                             shifts := { morning := none,
                                         afternoon := { icu := none, general := none },
                                         night := { icu := none, general := none } } }],
              scheduleDirtyRef := false, timer := none, inflight := none,
              isSaving := false, saveStatus := SaveState.saved,
              flushLog := [] }
            { date := "2024-01-03", shift := ShiftName.afternoon,
              ward := Ward.icu, doctorId := "a" }))
        { date := "2024-01-03", shift := ShiftName.afternoon,
          ward := Ward.icu, doctorId := "b" }).scheduleDirtyRef = true)
    ∧ (flushComplete
        (editStep
          (timerFire
            (editStep
              { user := some "admin", doctors := [],
                config := { year := 2024, month := 0, customHolidays := [] },
                schedule := [{ date := "2024-01-03", isHoliday := false,
                               holidayName := none,
                               shifts := { morning := none,
                                           afternoon := { icu := none, general := none },
                                           night := { icu := none, general := none } } }],
                scheduleDirtyRef := false, timer := none, inflight := none,
                isSaving := false, saveStatus := SaveState.saved,
                flushLog := [] }
              { date := "2024-01-03", shift := ShiftName.afternoon,
                ward := Ward.icu, doctorId := "a" }))
          { date := "2024-01-03", shift := ShiftName.afternoon,
            ward := Ward.icu, doctorId := "b" })
        true).scheduleDirtyRef = false
    ∧ ¬ (flushComplete
        (editStep
          (timerFire
            (editStep
              { user := some "admin", doctors := [],
                config := { year := 2024, month := 0, customHolidays := [] },
                schedule := [{ date := "2024-01-03", isHoliday := false,
                               holidayName := none,
                               shifts := { morning := none,
                                           afternoon := { icu := none, general := none },
                                           night := { icu := none, general := none } } }],
                scheduleDirtyRef := false, timer := none, inflight := none,
                isSaving := false, saveStatus := SaveState.saved,
                flushLog := [] }
              { date := "2024-01-03", shift := ShiftName.afternoon,
                ward := Ward.icu, doctorId := "a" }))
          { date := "2024-01-03", shift := ShiftName.afternoon,
            ward := Ward.icu, doctorId := "b" })
        true).schedule ∈ (flushComplete
        (editStep
          (timerFire
            (editStep
              { user := some "admin", doctors := [],
                config := { year := 2024, month := 0, customHolidays := [] },
                schedule := [{ date := "2024-01-03", isHoliday := false,
                               holidayName := none,
                               shifts := { morning := none,
                                           afternoon := { icu := none, general := none },
                                           night := { icu := none, general := none } } }],
                scheduleDirtyRef := false, timer := none, inflight := none,
                isSaving := false, saveStatus := SaveState.saved,
                flushLog := [] }
              { date := "2024-01-03", shift := ShiftName.afternoon,
                ward := Ward.icu, doctorId := "a" }))
          { date := "2024-01-03", shift := ShiftName.afternoon,
            ward := Ward.icu, doctorId := "b" })
        true).flushLog := by
  decide

/-- The observable outcome of `handleGenerate`
(src/App.tsx lines 229-256). -/
inductive GenerateResult : Type
  | notAdmin
  | insufficientStaff
  | generated (result : List DailySchedule)
deriving DecidableEq, Repr

/-- The `setSchedule` merge of `handleGenerate`
(src/App.tsx lines 240-247): days of the current roster are replaced by
the generated day of the same date, keeping days the generation did not
cover. -/
def mergeGenerated (prev generated : List DailySchedule) :
    List DailySchedule :=
  prev.map (fun day =>
    match generated.find? (fun g => g.date == day.date) with
    | none => day
    | some genDay => { day with shifts := genDay.shifts })

/-- `generateScheduleWithGemini`
(src/services/geminiService.ts lines 78-130): the source builds a
natural-language rule prompt from the doctors and the config, sends it
to the remote `gemini-2.5-flash` model, and returns
`JSON.parse(response.text)` — the parsed model response — with no
further transformation.  The embedding therefore takes the parsed
response of the external model as an explicit oracle argument and
returns it; the prompt inputs `doctors` and `cfg` do not otherwise
enter the result. -/
def generateScheduleWithGemini (doctors : List Doctor)
    (cfg : ScheduleConfig) (modelResponse : List DailySchedule) :
    List DailySchedule :=
  modelResponse

/-- `handleGenerate` (src/App.tsx lines 229-256) with the parsed model
response as oracle: the admin guard returns silently; fewer than 2
active doctors reports the insufficient-staff alert and returns before
any generation call (state unchanged); otherwise the generated days are
merged into the roster, the dirty ref is set and the debounce re-arms. -/
def handleGenerate (st : AppState) (modelResponse : List DailySchedule) :
    GenerateResult × AppState :=
  if st.user ≠ some "admin" then (GenerateResult.notAdmin, st)
  else if (st.doctors.filter (fun d => d.active)).length < 2 then
    (GenerateResult.insufficientStaff, st)
  else
    let generated :=
      generateScheduleWithGemini st.doctors st.config modelResponse
    (GenerateResult.generated generated,
     scheduleEffect
       { st with schedule := mergeGenerated st.schedule generated,
                 scheduleDirtyRef := true,
                 saveStatus := SaveState.unsaved })

/-- C8: with fewer than 2 active physicians, `handleGenerate` (invoked
by an admin) reports the insufficient-staff error immediately and
returns with the state — in particular the roster and the flush log —
unchanged, never reaching the generation call. -/
theorem handleGenerate_insufficient_staff (st : AppState)
    (modelResponse : List DailySchedule)
    (hadmin : st.user = some "admin")
    (hfew : (st.doctors.filter (fun d => d.active)).length < 2) :
    handleGenerate st modelResponse
      = (GenerateResult.insufficientStaff, st) := by
  unfold handleGenerate
  simp [hadmin, hfew]

/-- Witness for C8: one active and one inactive doctor. -/
theorem handleGenerate_insufficient_staff_witness :
    handleGenerate
      { user := some "admin",
        doctors := [{ id := "d1", name := "A", phone := "", active := true,
                      unavailableDates := [], color := "" },
                    { id := "d2", name := "B", phone := "", active := false,
                      unavailableDates := [], color := "" }],
        config := { year := 2024, month := 0, customHolidays := [] },
        schedule := [], scheduleDirtyRef := false, timer := none,
        inflight := none, isSaving := false,
        saveStatus := SaveState.saved, flushLog := [] }
      []
      = (GenerateResult.insufficientStaff,
         { user := some "admin",
           doctors := [{ id := "d1", name := "A", phone := "", active := true,
                         unavailableDates := [], color := "" },
                       { id := "d2", name := "B", phone := "", active := false,
                         unavailableDates := [], color := "" }],
           config := { year := 2024, month := 0, customHolidays := [] },
           schedule := [], scheduleDirtyRef := false, timer := none,
           inflight := none, isSaving := false,
           saveStatus := SaveState.saved, flushLog := [] }) :=
  handleGenerate_insufficient_staff _ [] rfl (by decide)

/-- Counterexample to C9: two invocations of the generation entry point
with identical physician lists, identical availability, and identical
config produce different rosters when the external model's parsed
response differs — the result is the model response itself, so it is
not determined by the claimed inputs, and no local tie-breaking by
physician list order exists. -/
theorem generate_not_determined_by_inputs :
    generateScheduleWithGemini
      [{ id := "d1", name := "A", phone := "", active := true,
         unavailableDates := [], color := "" },
       { id := "d2", name := "B", phone := "", active := true,
         unavailableDates := [], color := "" }]
      { year := 2024, month := 0, customHolidays := [] }
      []
    ≠ generateScheduleWithGemini
      [{ id := "d1", name := "A", phone := "", active := true,
         unavailableDates := [], color := "" },
       { id := "d2", name := "B", phone := "", active := true,
         unavailableDates := [], color := "" }]
      { year := 2024, month := 0, customHolidays := [] }
      [{ date := "2024-01-01", isHoliday := false, holidayName := none,
         shifts := { morning := none,
                     afternoon := { icu := some "d1", general := some "d2" },
                     night := { icu := some "d1", general := some "d2" } } }] := by
  decide

/-- C9 amended: generation is deterministic only once the external
model's parsed response is fixed: two invocations with the same
response yield the same roster — indeed the response alone determines
the output, whatever the physician lists and configs — and merging that
output into the same previous roster yields the same result. -/
theorem generate_deterministic_given_response
    (doctors1 doctors2 : List Doctor) (cfg1 cfg2 : ScheduleConfig)
    (r1 r2 : List DailySchedule) (prev : List DailySchedule)
    (h : r1 = r2) :
    generateScheduleWithGemini doctors1 cfg1 r1
      = generateScheduleWithGemini doctors2 cfg2 r2
    ∧ mergeGenerated prev (generateScheduleWithGemini doctors1 cfg1 r1)
      = mergeGenerated prev (generateScheduleWithGemini doctors2 cfg2 r2) := by
  subst h
  exact ⟨rfl, rfl⟩

/-- Witness for the amended C9. -/
theorem generate_deterministic_given_response_witness :
    generateScheduleWithGemini
      [{ id := "d1", name := "A", phone := "", active := true,
         unavailableDates := [], color := "" }]
      { year := 2024, month := 0, customHolidays := [] }
      [{ date := "2024-01-01", isHoliday := false, holidayName := none,
         shifts := { morning := none,
                     afternoon := { icu := some "d1", general := none },
                     night := { icu := some "d1", general := none } } }]
      = generateScheduleWithGemini
      [{ id := "d2", name := "B", phone := "", active := true,
         unavailableDates := [], color := "" }]
      { year := 2025, month := 3, customHolidays := [] }
      [{ date := "2024-01-01", isHoliday := false, holidayName := none,
         shifts := { morning := none,
                     afternoon := { icu := some "d1", general := none },
                     night := { icu := some "d1", general := none } } }]
    ∧ mergeGenerated []
        (generateScheduleWithGemini
          [{ id := "d1", name := "A", phone := "", active := true,
             unavailableDates := [], color := "" }]
          { year := 2024, month := 0, customHolidays := [] }
          [{ date := "2024-01-01", isHoliday := false, holidayName := none,
             shifts := { morning := none,
                         afternoon := { icu := some "d1", general := none },
                         night := { icu := some "d1", general := none } } }])
      = mergeGenerated []
        (generateScheduleWithGemini
          [{ id := "d2", name := "B", phone := "", active := true,
             unavailableDates := [], color := "" }]
          { year := 2025, month := 3, customHolidays := [] }
          [{ date := "2024-01-01", isHoliday := false, holidayName := none,
             shifts := { morning := none,
                         afternoon := { icu := some "d1", general := none },
                         night := { icu := some "d1", general := none } } }]) :=
  generate_deterministic_given_response _ _ _ _ _ _ _ rfl
